import Mathlib

/-!
Shallow embedding of `src/packages/cw_terra_test_mocks/src/terraswap_mock.rs`,
the terraswap/cw20 mock contract of `cw-terra-test-mocks`.

Machine integers: `Uint128` amounts are modelled as `Nat`, with the 128-bit
bound made explicit where overflow matters (`U128_MOD`).  Serde binaries are
modelled by the inductive `Binary`, whose constructors stand for the distinct
serde-JSON encodings the contract produces or consumes; `from_binary` for a
given target type succeeds exactly on the matching constructor.
-/

namespace TerraswapMock

/-- The modulus of `u128`: `Uint128` values are naturals below this bound. -/
def U128_MOD : Nat := 2 ^ 128

/-- `PingMsg` — single string field, decoded out of a `Receive` payload. -/
structure PingMsg where
  payload : String
deriving DecidableEq, Repr

/-- `terraswap::asset::AssetInfo` (only the variants the mock builds). -/
inductive AssetInfo where
  | nativeToken (denom : String)
  | token (contract_addr : String)
deriving DecidableEq, Repr

/-- `terraswap::asset::Asset`. -/
structure Asset where
  info : AssetInfo
  amount : Nat
deriving DecidableEq, Repr

/-- `PoolResponse` as declared in the source: two assets and a total share. -/
structure PoolResponse where
  assets : Asset × Asset
  total_share : Nat
deriving DecidableEq, Repr

/-- `PairResponse` as declared in the source. -/
structure PairResponse where
  asset_infos : AssetInfo × AssetInfo
  contract_addr : String
  liquidity_token : String
deriving DecidableEq, Repr

/-- `cw20::BalanceResponse`. -/
structure BalanceResponse where
  balance : Nat
deriving DecidableEq, Repr

/-- `cw20::TokenInfoResponse`. -/
structure TokenInfoResponse where
  name : String
  symbol : String
  decimals : Nat
  total_supply : Nat
deriving DecidableEq, Repr

/-- `cosmwasm_std::Binary`, modelled as a tagged value: each constructor is the
serde-JSON encoding of one of the value shapes appearing in the contract.
`raw` stands for any other byte string (one that decodes as none of them). -/
inductive Binary where
  | pingMsg (p : PingMsg)
  | str (s : String)
  | unit
  | poolResponse (r : PoolResponse)
  | pairResponse (r : PairResponse)
  | balanceResponse (r : BalanceResponse)
  | tokenInfoResponse (r : TokenInfoResponse)
  | cw20ReceiveMsg (sender : String) (amount : Nat) (msg : Binary)
  | raw (bytes : List Nat)
deriving DecidableEq, Repr

/-- `from_binary::<PingMsg>`: succeeds exactly on a `PingMsg` encoding. -/
def from_binary_ping : Binary → Option PingMsg
  | .pingMsg p => some p
  | _ => none

/-- `from_binary::<PoolResponse>`: succeeds exactly on a `PoolResponse`
encoding. -/
def from_binary_pool : Binary → Option PoolResponse
  | .poolResponse r => some r
  | _ => none

/-- `MockExecuteMsg`.  `receive` carries the fields of `Cw20ReceiveMsg`. -/
inductive MockExecuteMsg where
  | receive (sender : String) (amount : Nat) (msg : Binary)
  | mint (recipient : String) (amount : Nat)
  | send (contract : String) (amount : Nat) (msg : Binary)
  | burn (amount : Nat)
  | transfer (recipient : String) (amount : Nat)
deriving DecidableEq, Repr

/-- `MockQueryMsg`. -/
inductive MockQueryMsg where
  | pair
  | pool
  | tokenInfo
  | balance (address : String)
deriving DecidableEq, Repr

/-- An outgoing `WasmMsg::Execute` produced by `into_cosmos_msg`: the target
contract address and the encoded message. -/
structure CosmosWasmMsg where
  contract_addr : String
  msg : Binary
deriving DecidableEq, Repr

/-- `cosmwasm_std::Response`: attributes, outgoing messages, optional data. -/
structure Response where
  attributes : List (String × String)
  messages : List CosmosWasmMsg
  data : Option Binary
deriving DecidableEq, Repr

/-- `Response::new()` / `Response::default()`. -/
def Response.empty : Response :=
  { attributes := [], messages := [], data := none }

/-- `MessageInfo`: the caller (`info.sender`). -/
structure MessageInfo where
  sender : String
deriving DecidableEq, Repr

/-- The contract's errors.  `invalidAddress` is `addr_validate` failing,
`decodeError` is `from_binary` failing, `overflowPanic` is the panic of
overflow-checked `Uint128` addition aborting the call. -/
inductive ContractError where
  | invalidAddress
  | decodeError
  | overflowPanic
deriving DecidableEq, Repr

/-- The `BALANCES` map, `Map<&Addr, Uint128>`: an association list with unique
keys, addresses to balances. -/
abbrev Ledger : Type := List (String × Nat)

/-- `may_load`: look an address up in the ledger. -/
def ledgerLookup : Ledger → String → Option Nat
  | [], _ => none
  | (b, w) :: rest, a => if b = a then some w else ledgerLookup rest a

/-- Balance of an address, `0` when no entry exists
(`balance.unwrap_or_default()`). -/
def ledgerGetD (l : Ledger) (a : String) : Nat :=
  (ledgerLookup l a).getD 0

/-- `save`: write an address's balance, overwriting an existing entry or
appending a fresh one. -/
def ledgerInsert : Ledger → String → Nat → Ledger
  | [], a, v => [(a, v)]
  | (b, w) :: rest, a, v =>
      if b = a then (a, v) :: rest else (b, w) :: ledgerInsert rest a v

/-- Modelled from the spec: `cosmwasm_std`'s `Uint128` addition (the `+` in the
`BALANCES.update` closure; its source is not under `src/`).  Per §4.2 it is
overflow-checked: the sum when it fits in 128 bits, failure (a panic aborting
the call) otherwise. -/
def uint128_add (a b : Nat) : Option Nat :=
  if a + b < U128_MOD then some (a + b) else none

/-- The execute entry point of `contract_terraswap_mock`, as a pure transition.
`validate` models `deps.api.addr_validate` (host-defined validity).  On success
it returns the new ledger and the `Response`; on failure the host discards any
writes, so errors return no ledger. -/
def execute (validate : String → Bool) (ledger : Ledger) (info : MessageInfo) :
    MockExecuteMsg → Except ContractError (Ledger × Response)
  | .receive _ _ msg =>
      match from_binary_ping msg with
      | some received =>
          .ok (ledger,
            { attributes := [("action", "pong")]
              messages := []
              data := some (.str received.payload) })
      | none => .error .decodeError
  | .mint _ _ => .ok (ledger, Response.empty)
  | .send contract amount msg =>
      .ok (ledger,
        { attributes := []
          messages := [⟨contract, .cw20ReceiveMsg info.sender amount msg⟩]
          data := none })
  | .burn _ => .ok (ledger, Response.empty)
  | .transfer recipient amount =>
      if validate recipient then
        match uint128_add (ledgerGetD ledger recipient) amount with
        | some v =>
            .ok (ledgerInsert ledger recipient v,
              { attributes :=
                  [("action", "transfer"), ("from", info.sender),
                   ("to", recipient), ("amount", toString amount)]
                messages := []
                data := none })
        | none => .error .overflowPanic
      else .error .invalidAddress

/-- Run one execute call under the host: on error the storage write is rolled
back and the ledger is unchanged. -/
def runExec (validate : String → Bool) (ledger : Ledger)
    (call : MessageInfo × MockExecuteMsg) : Ledger :=
  match execute validate ledger call.1 call.2 with
  | .ok (l, _) => l
  | .error _ => ledger

/-- Run a sequence of execute calls. -/
def runExecs (validate : String → Bool)
    (calls : List (MessageInfo × MockExecuteMsg)) (ledger : Ledger) : Ledger :=
  calls.foldl (runExec validate) ledger

/-- The initial value of the `TOKEN_ADDR` static: `"string"`. -/
def tokenAddrInit : String := "string"

/-- `set_liq_token_addr`: overwrite the static and return the value read back
from it.  The `RwLock`ed static is threaded as explicit state: result value and
new state. -/
def set_liq_token_addr (new_addr : String) (_token_addr : String) :
    String × String :=
  (new_addr, new_addr)

/-- `get_liq_token_addr`: read the static. -/
def get_liq_token_addr (token_addr : String) : String :=
  token_addr

/-- `mock_pair_info`: fixed asset infos and contract address, current
`TOKEN_ADDR` as liquidity token. -/
def mock_pair_info (token_addr : String) : PairResponse :=
  { asset_infos := (.nativeToken "uusd", .nativeToken "uusd")
    contract_addr := "pair0000"
    liquidity_token := get_liq_token_addr token_addr }

/-- The `PoolResponse` literal built inside `mock_pool_info`. -/
def mock_pool_info_built : PoolResponse :=
  { assets :=
      ({ amount := 10000, info := .nativeToken "token" },
       { amount := 10000, info := .nativeToken "uusd" })
    total_share := 1000 }

/-- `mock_pool_info` as written in the source: its signature has no return
type, so it returns `()`; the statement `to_binary(&PoolResponse { .. })
.unwrap_or_default();` builds the response, encodes it and discards the
result. -/
def mock_pool_info : Unit :=
  let _discarded : Binary := .poolResponse mock_pool_info_built
  ()

/-- `mock_balance_info`: constant balance `10`. -/
def mock_balance_info : BalanceResponse :=
  { balance := 10 }

/-- `mock_token_info`: fixed token descriptor. -/
def mock_token_info : TokenInfoResponse :=
  { name := "MyToken"
    symbol := "TOKEN"
    decimals := 6
    total_supply := 100000000000000 }

/-- `to_binary` applied to the `()` returned by `mock_pool_info`: serde
encodes the unit value (JSON `null`). -/
def to_binary_unit (_u : Unit) : Binary :=
  .unit

/-- The query entry point of `contract_terraswap_mock`.  It takes the current
`TOKEN_ADDR` state and the ledger (which no branch consults). -/
def query (token_addr : String) (_ledger : Ledger) :
    MockQueryMsg → Except ContractError Binary
  | .pair => .ok (.pairResponse (mock_pair_info token_addr))
  | .pool => .ok (to_binary_unit mock_pool_info)
  | .tokenInfo => .ok (.tokenInfoResponse mock_token_info)
  | .balance _ => .ok (.balanceResponse mock_balance_info)

/-! Ledger lemmas. -/

/-- Looking up the freshly written address finds the written value. -/
theorem ledgerLookup_insert_self (l : Ledger) (a : String) (v : Nat) :
    ledgerLookup (ledgerInsert l a v) a = some v := by
  induction l with
  | nil => simp [ledgerInsert, ledgerLookup]
  | cons p rest ih =>
      obtain ⟨b, w⟩ := p
      by_cases h : b = a
      · simp [ledgerInsert, ledgerLookup, h]
      · simp [ledgerInsert, ledgerLookup, h, ih]

/-- Writing one address leaves every other address's entry unchanged. -/
theorem ledgerLookup_insert_ne (l : Ledger) (a b : String) (v : Nat)
    (h : b ≠ a) :
    ledgerLookup (ledgerInsert l a v) b = ledgerLookup l b := by
  have hab : a ≠ b := fun hh => h hh.symm
  induction l with
  | nil => simp [ledgerInsert, ledgerLookup, hab]
  | cons p rest ih =>
      obtain ⟨c, w⟩ := p
      by_cases hc : c = a
      · subst hc
        simp [ledgerInsert, ledgerLookup, hab]
      · simp [ledgerInsert, ledgerLookup, hc, ih]

/-- A successful `Transfer` call, seen through the host: it commits the ledger
with the recipient's balance incremented by the checked sum. -/
theorem runExec_transfer_ok (validate : String → Bool) (ledger : Ledger)
    (info : MessageInfo) (A : String) (N : Nat)
    (hv : validate A = true) (hlt : ledgerGetD ledger A + N < U128_MOD) :
    runExec validate ledger (info, .transfer A N)
      = ledgerInsert ledger A (ledgerGetD ledger A + N) := by
  simp [runExec, execute, hv, uint128_add, hlt]

/-! Concrete fixtures used by witnesses and counterexamples. -/

/-- An address validator accepting everything (like `MockApi` on lowercase
alphanumeric input). -/
def vAll : String → Bool := fun _ => true

/-- An address validator rejecting everything. -/
def vNone : String → Bool := fun _ => false

/-- A concrete caller. -/
def callerInfo : MessageInfo := ⟨"sender0"⟩

/-! Claim theorems. -/

/-- C1: refuted — after any sequence of execute calls and in any ledger state,
the `Pool {}` query returns the serde encoding of `()` (`mock_pool_info`
discards the `PoolResponse` it builds and returns unit), which does not decode
to any `PoolResponse`, let alone one with reserves 10000/10000 and total share
1000. -/
theorem pool_query_returns_unit (token_addr : String)
    (validate : String → Bool) (calls : List (MessageInfo × MockExecuteMsg))
    (ledger : Ledger) :
    query token_addr (runExecs validate calls ledger) .pool
      = .ok (to_binary_unit mock_pool_info)
    ∧ to_binary_unit mock_pool_info = .unit
    ∧ from_binary_pool .unit = none :=
  ⟨rfl, rfl, rfl⟩

/-- C2 (counterexample): with N1 = N2 = 2^127, the first `Transfer` leaves
"alice" at 2^127 and the second aborts with an overflow panic, so the final
balance is 2^127, not N1 + N2 = 2^128. -/
theorem transfer_twice_overflow_counterexample :
    runExecs vAll
      [(callerInfo, .transfer "alice" (2 ^ 127)),
       (callerInfo, .transfer "alice" (2 ^ 127))] []
      = [("alice", 2 ^ 127)]
    ∧ ledgerGetD [("alice", 2 ^ 127)] "alice" ≠ 2 ^ 127 + 2 ^ 127
    ∧ execute vAll [("alice", 2 ^ 127)] callerInfo
        (.transfer "alice" (2 ^ 127)) = .error .overflowPanic :=
  ⟨rfl, by decide, rfl⟩

/-- C2 (amended): for every validating address A with no prior ledger entry
and amounts N1, N2 with N1 + N2 < 2^128, `Transfer(A, N1)` then
`Transfer(A, N2)` leaves A's stored balance equal to N1 + N2. -/
theorem transfer_then_transfer_adds (validate : String → Bool)
    (info1 info2 : MessageInfo) (A : String) (N1 N2 : Nat) (ledger : Ledger)
    (hv : validate A = true) (hA : ledgerLookup ledger A = none)
    (hsum : N1 + N2 < U128_MOD) :
    ledgerGetD
      (runExecs validate
        [(info1, .transfer A N1), (info2, .transfer A N2)] ledger) A
      = N1 + N2 := by
  have g0 : ledgerGetD ledger A = 0 := by simp [ledgerGetD, hA]
  have h1 : ledgerGetD ledger A + N1 < U128_MOD := by rw [g0]; omega
  have e1 := runExec_transfer_ok validate ledger info1 A N1 hv h1
  have g1 : ledgerGetD
      (ledgerInsert ledger A (ledgerGetD ledger A + N1)) A
      = N1 := by
    simp [ledgerGetD, ledgerLookup_insert_self, hA]
  have h2 : ledgerGetD
      (ledgerInsert ledger A (ledgerGetD ledger A + N1)) A + N2
      < U128_MOD := by rw [g1]; omega
  have e2 := runExec_transfer_ok validate _ info2 A N2 hv h2
  simp only [runExecs, List.foldl]
  rw [e1, e2, g1]
  simp [ledgerGetD, ledgerLookup_insert_self]

/-- Witness for C2's amended theorem at A = "alice", N1 = 3, N2 = 4. -/
theorem transfer_then_transfer_adds_witness :
    vAll "alice" = true
    ∧ ledgerLookup [] "alice" = none
    ∧ 3 + 4 < U128_MOD
    ∧ ledgerGetD
        (runExecs vAll
          [(callerInfo, .transfer "alice" 3),
           (⟨"sender1"⟩, .transfer "alice" 4)] []) "alice"
        = 3 + 4 :=
  ⟨rfl, rfl, by decide,
    transfer_then_transfer_adds vAll callerInfo ⟨"sender1"⟩ "alice" 3 4 []
      rfl rfl (by decide)⟩

/-- C3: a `Transfer` whose recipient fails address validation errors with
`InvalidAddress`, and the committed ledger is unchanged. -/
theorem transfer_invalid_address (validate : String → Bool) (ledger : Ledger)
    (info : MessageInfo) (recipient : String) (amount : Nat)
    (hv : validate recipient = false) :
    execute validate ledger info (.transfer recipient amount)
      = .error .invalidAddress
    ∧ runExecs validate [(info, .transfer recipient amount)] ledger
      = ledger := by
  have e : execute validate ledger info (.transfer recipient amount)
      = .error .invalidAddress := by simp [execute, hv]
  exact ⟨e, by simp [runExecs, List.foldl, runExec, e]⟩

/-- Witness for C3 at recipient "BAD" under a rejecting validator. -/
theorem transfer_invalid_address_witness :
    vNone "BAD" = false
    ∧ execute vNone [("bob", 7)] callerInfo (.transfer "BAD" 5)
        = .error .invalidAddress
    ∧ runExecs vNone [(callerInfo, .transfer "BAD" 5)] [("bob", 7)]
        = [("bob", 7)] := by
  have h := transfer_invalid_address vNone [("bob", 7)] callerInfo "BAD" 5 rfl
  exact ⟨rfl, h.1, h.2⟩

/-- C4: after any sequence of execute calls, `Balance {address}` answers a
`BalanceResponse` of 10 for every address, and the query handler never
consults the ledger (its answer is the same in any two ledger states). -/
theorem balance_query_constant_ten (token_addr address : String)
    (validate : String → Bool) (calls : List (MessageInfo × MockExecuteMsg))
    (ledger ledger2 : Ledger) (q : MockQueryMsg) :
    query token_addr (runExecs validate calls ledger) (.balance address)
      = .ok (.balanceResponse { balance := 10 })
    ∧ query token_addr ledger q = query token_addr ledger2 q := by
  refine ⟨rfl, ?_⟩
  cases q <;> rfl

/-- C5: `set_liq_token_addr S` returns S, a subsequent `get_liq_token_addr`
returns S, and a subsequent `Pair {}` query carries S as the liquidity
token. -/
theorem set_get_liq_token_roundtrip (S token_addr : String)
    (ledger : Ledger) :
    (set_liq_token_addr S token_addr).1 = S
    ∧ get_liq_token_addr (set_liq_token_addr S token_addr).2 = S
    ∧ query (set_liq_token_addr S token_addr).2 ledger .pair
        = .ok (.pairResponse (mock_pair_info S))
    ∧ (mock_pair_info (set_liq_token_addr S token_addr).2).liquidity_token
        = S :=
  ⟨rfl, rfl, rfl, rfl⟩

/-- C6: `Receive` of a payload decoding to `PingMsg P` succeeds with data the
encoding of P and attributes `action=pong`; a payload that does not decode as
a `PingMsg` fails with `DecodeError`, leaving the ledger unchanged. -/
theorem receive_ping_pong (validate : String → Bool) (ledger : Ledger)
    (info : MessageInfo) (sender : String) (amount : Nat) (P : String)
    (b : Binary) :
    execute validate ledger info (.receive sender amount (.pingMsg ⟨P⟩))
      = .ok (ledger,
          { attributes := [("action", "pong")]
            messages := []
            data := some (.str P) })
    ∧ (from_binary_ping b = none →
        execute validate ledger info (.receive sender amount b)
          = .error .decodeError
        ∧ runExecs validate [(info, .receive sender amount b)] ledger
          = ledger) := by
  refine ⟨rfl, fun hb => ?_⟩
  have e : execute validate ledger info (.receive sender amount b)
      = .error .decodeError := by simp [execute, hb]
  exact ⟨e, by simp [runExecs, List.foldl, runExec, e]⟩

/-- Witness for C6 at P = "hello" and the non-PingMsg payload `.str "junk"`. -/
theorem receive_ping_pong_witness :
    execute vAll [] callerInfo (.receive "s" 5 (.pingMsg ⟨"hello"⟩))
      = .ok ([],
          { attributes := [("action", "pong")]
            messages := []
            data := some (.str "hello") })
    ∧ from_binary_ping (.str "junk") = none
    ∧ execute vAll [] callerInfo (.receive "s" 5 (.str "junk"))
        = .error .decodeError := by
  have h := receive_ping_pong vAll [] callerInfo "s" 5 "hello" (.str "junk")
  exact ⟨h.1, rfl, (h.2 rfl).1⟩

/-- C7: `Mint` and `Burn` return an empty `Response` and leave the ledger as
is; `Send` leaves the ledger as is and returns one outgoing `Cw20ReceiveMsg`
addressed to `contract` with sender the caller. -/
theorem mint_burn_send_frame (validate : String → Bool) (ledger : Ledger)
    (info : MessageInfo) (recipient contract : String) (amount : Nat)
    (payload : Binary) :
    execute validate ledger info (.mint recipient amount)
      = .ok (ledger, Response.empty)
    ∧ execute validate ledger info (.burn amount)
      = .ok (ledger, Response.empty)
    ∧ execute validate ledger info (.send contract amount payload)
      = .ok (ledger,
          { attributes := []
            messages := [⟨contract, .cw20ReceiveMsg info.sender amount payload⟩]
            data := none }) :=
  ⟨rfl, rfl, rfl⟩

/-- C8: a successful `Transfer{recipient: A, amount}` increases A's balance by
exactly `amount` and leaves every other address's ledger entry untouched. -/
theorem transfer_frame (validate : String → Bool) (ledger : Ledger)
    (info : MessageInfo) (A : String) (amount : Nat) (l2 : Ledger)
    (resp : Response)
    (h : execute validate ledger info (.transfer A amount) = .ok (l2, resp)) :
    ledgerGetD l2 A = ledgerGetD ledger A + amount
    ∧ ∀ B, B ≠ A → ledgerLookup l2 B = ledgerLookup ledger B := by
  by_cases hv : validate A = true
  · rcases hadd : uint128_add (ledgerGetD ledger A) amount with _ | v
    · rw [execute, hv] at h
      simp [hadd] at h
    · have hval : v = ledgerGetD ledger A + amount := by
        unfold uint128_add at hadd
        split at hadd
        · exact (Option.some.injEq _ _ ▸ hadd).symm
        · exact absurd hadd (by simp)
      rw [execute, hv] at h
      simp only [hadd, if_true] at h
      obtain ⟨hl, -⟩ := Prod.mk.injEq .. ▸ Except.ok.injEq .. ▸ h
      subst hl
      constructor
      · simp [ledgerGetD, ledgerLookup_insert_self, hval]
      · intro B hB
        exact ledgerLookup_insert_ne ledger A B v hB
  · rw [execute] at h
    simp [hv] at h

/-- Witness for C8: a successful concrete transfer of 5 to "alice" in a ledger
holding only "bob". -/
theorem transfer_frame_witness :
    ledgerGetD [("bob", 7), ("alice", 5)] "alice"
      = ledgerGetD [("bob", 7)] "alice" + 5
    ∧ ledgerLookup [("bob", 7), ("alice", 5)] "bob"
      = ledgerLookup [("bob", 7)] "bob" := by
  have h := transfer_frame vAll [("bob", 7)] callerInfo "alice" 5
    [("bob", 7), ("alice", 5)]
    { attributes :=
        [("action", "transfer"), ("from", "sender0"),
         ("to", "alice"), ("amount", "5")]
      messages := []
      data := none } rfl
  exact ⟨h.1, h.2 "bob" (by decide)⟩

/-- C9: when the recipient's existing balance plus the transferred amount does
not fit in 128 bits, the checked addition detects the overflow and the
`Transfer` call fails instead of wrapping. -/
theorem transfer_overflow_checked (validate : String → Bool)
    (ledger : Ledger) (info : MessageInfo) (A : String) (N : Nat)
    (hv : validate A = true)
    (hover : U128_MOD ≤ ledgerGetD ledger A + N) :
    execute validate ledger info (.transfer A N)
      = .error .overflowPanic := by
  have hadd : uint128_add (ledgerGetD ledger A) N = none := by
    unfold uint128_add
    rw [if_neg (by omega)]
  simp [execute, hv, hadd]

/-- Witness for C9 at balance 2^128 - 1 and amount 1. -/
theorem transfer_overflow_checked_witness :
    vAll "alice" = true
    ∧ U128_MOD ≤ ledgerGetD [("alice", 2 ^ 128 - 1)] "alice" + 1
    ∧ execute vAll [("alice", 2 ^ 128 - 1)] callerInfo
        (.transfer "alice" 1) = .error .overflowPanic :=
  ⟨rfl, by decide,
    transfer_overflow_checked vAll [("alice", 2 ^ 128 - 1)] callerInfo
      "alice" 1 rfl (by decide)⟩

/-- C10: before any setter call the fixture holds the placeholder "string":
`get_liq_token_addr` returns it and a `Pair {}` query carries it as the
liquidity token; the fixture value is a total `String`, never absent. -/
theorem initial_liq_token_placeholder (ledger : Ledger) :
    tokenAddrInit = "string"
    ∧ get_liq_token_addr tokenAddrInit = "string"
    ∧ (mock_pair_info tokenAddrInit).liquidity_token = "string"
    ∧ query tokenAddrInit ledger .pair
        = .ok (.pairResponse
            { asset_infos := (.nativeToken "uusd", .nativeToken "uusd")
              contract_addr := "pair0000"
              liquidity_token := "string" }) :=
  ⟨rfl, rfl, rfl, rfl⟩

end TerraswapMock
